import Mathlib

/-!
Verification development for the session/process orchestration layer of
src/server/claude-cli-wrapper.js. The JavaScript module is shallowly
embedded: pure helpers become Lean functions, the stateful parts
(session registry, per-line streaming, process exit handling) become
explicit state passing over a registry value, and the external world
(filesystem effects, the spawned process output) is supplied as input
data. Filesystem operations that can fail are driven by an oracle so
that the error branches of the source can be exercised.
-/

set_option maxRecDepth 4000

/-- JavaScript truthiness of a string: the empty string is falsy. -/
def strTruthy (s : String) : Bool := !(s == "")

/-- JavaScript truthiness of an optional string: `undefined`/`null` and
the empty string are falsy. -/
def optTruthy (o : Option String) : Bool :=
  match o with
  | none => false
  | some s => strTruthy s

/-- Read a truthy optional string (used after a truthiness guard). -/
def optGet (o : Option String) : String := o.getD ""

/-- Status stored in a registry entry (the source uses the strings
"active" and "aborted"). -/
inductive SessionStatus
  | active
  | aborted
deriving DecidableEq

/-- One value of the `activeSessions` map: process handle (abstracted to
its `killed` flag), start time omitted (never read by the claims),
status, and the staged temporary resources. -/
structure SessionRec where
  status : SessionStatus
  tempImagePaths : List String
  tempDir : Option String
  procKilled : Bool
deriving DecidableEq

/-- The `activeSessions` Map, as an association list. Iteration order is
not needed by any claim, only get/set/delete. -/
abbrev Registry := List (String × SessionRec)

/-- `activeSessions.get k`. -/
def rget (k : String) : Registry → Option SessionRec
  | [] => none
  | (k2, v) :: rest => if k2 == k then some v else rget k rest

/-- `activeSessions.delete k`. -/
def rdelete (k : String) : Registry → Registry
  | [] => []
  | (k2, v) :: rest => if k2 == k then rdelete k rest else (k2, v) :: rdelete k rest

/-- `activeSessions.set k v` (replaces any existing binding of `k`). -/
def rset (k : String) (v : SessionRec) (r : Registry) : Registry :=
  (k, v) :: rdelete k r

/-- A JSON decimal numeral, carried exactly as `mantissa * 10 ^ (-exp10)`
(for example 0.02 is mantissa 2, exp10 2). The source only tests the
cost field against `undefined` and logs it, so no arithmetic is
needed. -/
structure JsonNum where
  mantissa : Int
  exp10 : Nat
deriving DecidableEq

/-- One parsed JSONL message, restricted to the fields the source reads
(`session_id`, `type`, `total_cost_usd`). -/
structure Message where
  session_id : Option String := none
  type : Option String := none
  total_cost_usd : Option JsonNum := none
deriving DecidableEq

/-- Payload of a claude-response event: either a parsed message forwarded
as is, or a raw non-JSON line wrapped as text (lines 225-231). -/
inductive MsgData
  | parsed (m : Message)
  | text (s : String)
deriving DecidableEq

/-- Events sent to the sink via `ws.send` (JSON shapes of lines 203,
211, 272 and 291 of the source). -/
inductive Event
  | sessionCreated (sessionId : String)
  | claudeResponse (data : MsgData)
  | claudeComplete (sessionId : Option String) (exitCode : Nat) (isNewSession : Bool)
  | claudeError (error : String)
deriving DecidableEq

/-- One line of the child process standard output, as seen by the
`rl.on line` handler: whitespace-only, a line parsing as a JSON object,
or a non-blank line that fails to parse. -/
inductive OutLine
  | blank
  | json (m : Message)
  | text (s : String)
deriving DecidableEq

/-- Tool settings option object (`options.toolsSettings`). -/
structure ToolsSettings where
  allowedTools : Option (List String) := none
  disallowedTools : Option (List String) := none
deriving DecidableEq

/-- One attachment object of `options.images`. -/
structure ImageAttachment where
  data : String
deriving DecidableEq

/-- The options record accepted by `queryClaudeSDK` / `buildCliArgs`. -/
structure CliOptions where
  sessionId : Option String := none
  cwd : Option String := none
  model : Option String := none
  images : List ImageAttachment := []
  toolsSettings : Option ToolsSettings := none

/-- `options.toolsSettings?.allowedTools` with `undefined` collapsed to
the empty list (the source only compares its length to 0). -/
def allowedToolsOf (o : CliOptions) : List String :=
  (o.toolsSettings.bind (fun ts => ts.allowedTools)).getD []

/-- `options.toolsSettings?.disallowedTools`, same collapsing. -/
def disallowedToolsOf (o : CliOptions) : List String :=
  (o.toolsSettings.bind (fun ts => ts.disallowedTools)).getD []

/-- `buildCliArgs` (lines 28-55): sequential pushes onto the base
argument vector, ending with the prompt. -/
def buildCliArgs (command : String) (options : CliOptions) : List String :=
  let args := ["--print", "--output-format", "stream-json"]
  let args := if optTruthy options.sessionId then
      args ++ ["--resume", optGet options.sessionId] else args
  let args := if (allowedToolsOf options).length > 0 then
      args ++ ["--allowedTools", String.intercalate "," (allowedToolsOf options)] else args
  let args := if (disallowedToolsOf options).length > 0 then
      args ++ ["--disallowedTools", String.intercalate "," (disallowedToolsOf options)] else args
  let args := if optTruthy options.model then
      args ++ ["--model", optGet options.model] else args
  args ++ [command]

/-- `path.join a b`, modelled as separator concatenation (the inputs used
here contain no redundant separators to normalize). -/
def pathJoin (a b : String) : String := a ++ "/" ++ b

/-- String prefix test, computed structurally over the character
lists. -/
def strStartsWith (s pre : String) : Bool :=
  pre.data.isPrefixOf s.data

/-- The whitespace characters stripped by the trim of line 94 (the
common ASCII ones; exotic Unicode space classes are not modelled). -/
def isWsChar (c : Char) : Bool :=
  c == ' ' || c == '\t' || c == '\n' || c == '\r'

/-- `command.trim()`, computed structurally. -/
def strTrim (s : String) : String :=
  String.mk (((s.data.dropWhile isWsChar).reverse.dropWhile isWsChar).reverse)

/-- The regular expression of line 78 applied to an attachment data
string: `data:` then a non-empty mime part up to the first semicolon,
the literal `;base64,`, and a non-empty payload that the dot cannot
cross a line terminator of. Returns (mimeType, base64Data). -/
def dataUriMatch (s : String) : Option (String × String) :=
  let cs := s.data
  if "data:".data.isPrefixOf cs then
    let rest := cs.drop 5
    let mimeType := rest.takeWhile (fun c => !(c == ';'))
    let after := rest.drop mimeType.length
    if mimeType.length > 0 && ";base64,".data.isPrefixOf after then
      let payload := after.drop 8
      if payload.length > 0 && !(payload.contains '\n') && !(payload.contains '\r') then
        some (String.mk mimeType, String.mk payload)
      else none
    else none
  else none

/-- `mimeType.split(slash)[1] || png` (line 85): the part between the
first and second separator, defaulting to png when it is missing or
empty. -/
def extensionOf (mimeType : String) : String :=
  match mimeType.data.dropWhile (fun c => !(c == '/')) with
  | [] => "png"
  | _ :: rest =>
    let ext := rest.takeWhile (fun c => !(c == '/'))
    if ext.isEmpty then "png" else String.mk ext

/-- Outcomes of the fallible filesystem calls of `handleImages`:
whether `fs.mkdir` succeeds and whether the `fs.writeFile` for the image
at a given index succeeds. -/
structure FsOracle where
  mkdirOk : Bool
  writeOk : Nat → Bool

/-- The write loop of lines 77-91 over the enumerated attachment list:
entries whose data does not match the pattern are skipped with a logged
diagnostic; a write failure throws, aborting the loop. Returns the paths
pushed onto `tempImagePaths` before control left the loop, and whether
the loop was left by a thrown error. -/
def writeImagesLoop (fs : FsOracle) (tempDir : String) :
    List (Nat × ImageAttachment) → (List String × Bool)
  | [] => ([], false)
  | (i, image) :: rest =>
    match dataUriMatch image.data with
    | none => writeImagesLoop fs tempDir rest
    | some (mimeType, _payload) =>
      let filename := "image_" ++ toString i ++ "." ++ extensionOf mimeType
      let filepath := pathJoin tempDir filename
      if fs.writeOk i then
        let res := writeImagesLoop fs tempDir rest
        (filepath :: res.1, res.2)
      else
        ([], true)

/-- The enumerated note of line 95 appended to a non-empty prompt. -/
def imagesNote (paths : List String) : String :=
  String.intercalate "\n" (paths.enum.map (fun pi => toString (pi.1 + 1) ++ ". " ++ pi.2))

/-- The temp directory path computed at line 74 from the working
directory (`cwd || process.cwd()`) and the current time. -/
def tempDirPath (cwd : Option String) (processCwd : String) (now : Nat) : String :=
  let workingDir := if optTruthy cwd then optGet cwd else processCwd
  pathJoin (pathJoin (pathJoin workingDir ".tmp") "images") (toString now)

/-- Result record of `handleImages`. -/
structure StagedImages where
  modifiedCommand : String
  tempImagePaths : List String
  tempDir : Option String
deriving DecidableEq

/-- `handleImages` (lines 64-105). The catch of lines 101-104 returns
the locals as they stand at the moment of the error: `tempDir` is
already assigned before the `mkdir` call, and `tempImagePaths` holds
the paths written before a failing write. -/
def handleImages (command : String) (images : List ImageAttachment)
    (cwd : Option String) (processCwd : String) (now : Nat) (fs : FsOracle) :
    StagedImages :=
  if images.length = 0 then
    { modifiedCommand := command, tempImagePaths := [], tempDir := none }
  else
    let tempDir := tempDirPath cwd processCwd now
    if fs.mkdirOk = false then
      { modifiedCommand := command, tempImagePaths := [], tempDir := some tempDir }
    else
      let res := writeImagesLoop fs tempDir images.enum
      if res.2 then
        { modifiedCommand := command, tempImagePaths := res.1, tempDir := some tempDir }
      else
        let modifiedCommand :=
          if res.1.length > 0 ∧ strTruthy (strTrim command) then
            command ++ "\n\n[Images provided at the following paths:]\n" ++ imagesNote res.1
          else command
        { modifiedCommand := modifiedCommand, tempImagePaths := res.1, tempDir := some tempDir }

/-- The filesystem, as the list of currently existing paths. -/
abbrev FsState := List String

/-- `fs.unlink p` with its failure swallowed (line 117): removing an
absent path is a no-op. -/
def unlinkFs (p : String) (s : FsState) : FsState :=
  s.filter (fun q => !(q == p))

/-- `fs.rm dir recursive force` (line 120): removes the directory and
everything under it; absent targets are a no-op. -/
def rmRecursiveFs (d : String) (s : FsState) : FsState :=
  s.filter (fun q => !(q == d) && !(strStartsWith q (d ++ "/")))

/-- `cleanupTempFiles` (lines 112-126): early return when the path list
is empty, else unlink each path, then recursively remove the directory
when one is present. -/
def cleanupTempFiles (tempImagePaths : List String) (tempDir : Option String)
    (s : FsState) : FsState :=
  if tempImagePaths.length = 0 then s
  else
    let s1 := tempImagePaths.foldl (fun acc p => unlinkFs p acc) s
    match tempDir with
    | some d => rmRecursiveFs d s1
    | none => s1

/-- Mutable state of the `rl.on line` handler closure: the captured
session id, the session-created flag, the registry, plus the observable
outputs accumulated so far (events sent via `ws.send` and the arguments
of `ws.setSessionId` calls). -/
structure LineState where
  captured : Option String
  createdSent : Bool
  registry : Registry
  events : List Event
  setSessionIdCalls : List String

/-- The rekeying of lines 189-193: fetch the entry under the provisional
key; when present, delete it and rebind the same record under the real
key; when absent, leave the registry unchanged. -/
def rekeySession (processSessionId realId : String) (r : Registry) : Registry :=
  match rget processSessionId r with
  | some session => rset realId session (rdelete processSessionId r)
  | none => r

/-- The body of the line handler (lines 178-233) for one line.
`sessionId` is the caller-supplied id from the options, the emission
guard of line 201; `processSessionId` is the provisional registration
key of line 162. The sink is modelled as always exposing
`setSessionId`, whose calls are recorded. -/
def stepLine (sessionId : Option String) (processSessionId : String)
    (st : LineState) (l : OutLine) : LineState :=
  match l with
  | OutLine.blank => st
  | OutLine.text s =>
    { st with events := st.events ++ [Event.claudeResponse (MsgData.text s)] }
  | OutLine.json m =>
    if optTruthy m.session_id && !(optTruthy st.captured) then
      if !(optTruthy sessionId) && !st.createdSent then
        { captured := some (optGet m.session_id), createdSent := true,
          registry := rekeySession processSessionId (optGet m.session_id) st.registry,
          events := st.events ++ [Event.sessionCreated (optGet m.session_id),
                                  Event.claudeResponse (MsgData.parsed m)],
          setSessionIdCalls := st.setSessionIdCalls ++ [optGet m.session_id] }
      else
        { captured := some (optGet m.session_id), createdSent := st.createdSent,
          registry := rekeySession processSessionId (optGet m.session_id) st.registry,
          events := st.events ++ [Event.claudeResponse (MsgData.parsed m)],
          setSessionIdCalls := st.setSessionIdCalls ++ [optGet m.session_id] }
    else
      { st with events := st.events ++ [Event.claudeResponse (MsgData.parsed m)] }

/-- How the spawned process terminates: a close event with an exit code,
or a process-level error event (for example a spawn failure) carrying
the error message. -/
inductive ExitEvent
  | closed (code : Nat)
  | failed (message : String)
deriving DecidableEq

/-- Externally supplied behavior of one spawned process: the standard
output lines delivered before termination, the accumulated standard
error text, and the terminal event. -/
structure ProcRun where
  outLines : List OutLine
  stderrText : String
  exitEvent : ExitEvent

/-- Observable outcome of one `queryClaudeSDK` call: events sent to the
sink in order, `ws.setSessionId` call arguments, the final registry,
the arguments of each `cleanupTempFiles` call, and the error rethrown
to the caller when the request failed. -/
structure QueryResult where
  events : List Event
  setSessionIdCalls : List String
  registry : Registry
  cleanupCalls : List (List String × Option String)
  thrown : Option String

/-- The provisional-or-caller registration key of line 162:
`capturedSessionId || pending_<now>` evaluated at registration time,
when `capturedSessionId` still equals the caller-supplied id. -/
def processIdOf (sessionId : Option String) (now : Nat) : String :=
  if optTruthy sessionId then optGet sessionId else "pending_" ++ toString now

/-- Process termination handling of lines 243-297: the close handler
(lines 244-259) deletes the entry under the captured id when truthy,
else under the provisional id, then resolves on a zero exit code and
rejects otherwise; a rejection or a process error event reaches the
catch (lines 279-297), which deletes only a truthy captured id, runs
cleanup, emits the error event and rethrows. The success path (lines
267-277) runs cleanup and emits the completion event. On the process
error path the close event still fires (Node emits close after error
when the child fails to spawn; its late reject on the settled promise
is a no-op), so the close handler deletion of lines 248-252 runs there
too; the catch deletion and the close deletion commute, so both orders
yield the registry written below. -/
def finishRun (command : String) (sessionId : Option String)
    (processSessionId : String) (tempImagePaths : List String)
    (tempDir : Option String) (stderrText : String) (ev : ExitEvent)
    (st : LineState) : QueryResult :=
  match ev with
  | ExitEvent.closed code =>
    if code = 0 then
      { events := st.events ++
          [Event.claudeComplete st.captured 0 (!(optTruthy sessionId) && strTruthy command)],
        setSessionIdCalls := st.setSessionIdCalls,
        registry := if optTruthy st.captured then rdelete (optGet st.captured) st.registry
                    else rdelete processSessionId st.registry,
        cleanupCalls := [(tempImagePaths, tempDir)],
        thrown := none }
    else
      { events := st.events ++
          [Event.claudeError ("Claude exited with code " ++ toString code ++ ": " ++ stderrText)],
        setSessionIdCalls := st.setSessionIdCalls,
        registry :=
          if optTruthy st.captured then
            rdelete (optGet st.captured)
              (if optTruthy st.captured then rdelete (optGet st.captured) st.registry
               else rdelete processSessionId st.registry)
          else
            (if optTruthy st.captured then rdelete (optGet st.captured) st.registry
             else rdelete processSessionId st.registry),
        cleanupCalls := [(tempImagePaths, tempDir)],
        thrown := some ("Claude exited with code " ++ toString code ++ ": " ++ stderrText) }
  | ExitEvent.failed msg =>
    { events := st.events ++ [Event.claudeError msg],
      setSessionIdCalls := st.setSessionIdCalls,
      registry :=
        if optTruthy st.captured then
          rdelete (optGet st.captured)
            (if optTruthy st.captured then rdelete (optGet st.captured) st.registry
             else rdelete processSessionId st.registry)
        else
          (if optTruthy st.captured then rdelete (optGet st.captured) st.registry
           else rdelete processSessionId st.registry),
      cleanupCalls := [(tempImagePaths, tempDir)],
      thrown := some msg }

/-- `queryClaudeSDK` (lines 135-298). Attachment staging, argument
building (the vector is handed to the spawned process and is otherwise
unobserved here), registration under the caller id or a provisional
`pending_<now>` id, per-line processing, then termination handling via
`finishRun`. -/
def queryClaudeSDK (command : String) (options : CliOptions)
    (processCwd : String) (now : Nat) (fs : FsOracle)
    (r0 : Registry) (run : ProcRun) : QueryResult :=
  let staged := handleImages command options.images options.cwd processCwd now fs
  let _args := buildCliArgs staged.modifiedCommand options
  let st0 : LineState :=
    { captured := options.sessionId, createdSent := false,
      registry := rset (processIdOf options.sessionId now)
        { status := SessionStatus.active, tempImagePaths := staged.tempImagePaths,
          tempDir := staged.tempDir, procKilled := false } r0,
      events := [], setSessionIdCalls := [] }
  finishRun command options.sessionId (processIdOf options.sessionId now)
    staged.tempImagePaths staged.tempDir run.stderrText run.exitEvent
    (run.outLines.foldl (stepLine options.sessionId (processIdOf options.sessionId now)) st0)

/-- Observable outcome of `abortClaudeSDKSession`: the boolean returned
to the caller, the registry and filesystem afterwards, whether a
SIGTERM was issued, and the session record after its status mutation
(none when the id was not found). -/
structure AbortResult where
  found : Bool
  registry : Registry
  fsState : FsState
  sigtermSent : Bool
  finalSession : Option SessionRec
deriving DecidableEq

/-- `abortClaudeSDKSession` (lines 305-342): unknown ids return false
and change nothing; otherwise kill the process when not already killed
(the deferred 5 second SIGKILL escalation is real-time and out of
scope), mark the record aborted, clean up the temp files, delete the
entry and return true. -/
def abortClaudeSDKSession (sessionId : String) (r : Registry) (s : FsState) :
    AbortResult :=
  match rget sessionId r with
  | none =>
    { found := false, registry := r, fsState := s,
      sigtermSent := false, finalSession := none }
  | some session =>
    let sigtermSent := !session.procKilled
    let session2 := { session with status := SessionStatus.aborted }
    let s2 := cleanupTempFiles session.tempImagePaths session.tempDir s
    { found := true, registry := rdelete sessionId r, fsState := s2,
      sigtermSent := sigtermSent, finalSession := some session2 }

/-- `isClaudeSDKSessionActive` (lines 349-352). -/
def isClaudeSDKSessionActive (sessionId : String) (r : Registry) : Bool :=
  match rget sessionId r with
  | some session => session.status == SessionStatus.active
  | none => false

/-- `getActiveClaudeSDKSessions` (lines 358-360). -/
def getActiveClaudeSDKSessions (r : Registry) : List String :=
  r.map (fun p => p.1)

/-! ## Helper lemmas about the registry operations -/

theorem rget_rdelete_self (k : String) (r : Registry) : rget k (rdelete k r) = none := by
  induction r with
  | nil => rfl
  | cons hd tl ih =>
    obtain ⟨k2, v⟩ := hd
    by_cases h : (k2 == k) = true
    · simpa [rdelete, h] using ih
    · simp only [rdelete, h, if_false, Bool.false_eq_true, if_neg]
      simpa [rget, h] using ih

theorem rget_rdelete_ne (k j : String) (r : Registry) (h : k ≠ j) :
    rget k (rdelete j r) = rget k r := by
  induction r with
  | nil => rfl
  | cons hd tl ih =>
    obtain ⟨k2, v⟩ := hd
    by_cases h2 : (k2 == j) = true
    · have hk : (k2 == k) = false := by
        simp only [beq_iff_eq] at h2
        subst h2
        simpa [beq_eq_false_iff_ne] using fun hx => h hx.symm
      simp [rdelete, h2, rget, hk, ih]
    · simp only [rdelete, h2, Bool.false_eq_true, if_neg, if_false]
      by_cases h3 : (k2 == k) = true
      · simp [rget, h3]
      · simp [rget, h3, ih]

theorem rdelete_idem (k : String) (r : Registry) :
    rdelete k (rdelete k r) = rdelete k r := by
  induction r with
  | nil => rfl
  | cons hd tl ih =>
    obtain ⟨k2, v⟩ := hd
    by_cases h : (k2 == k) = true
    · simp [rdelete, h, ih]
    · simp [rdelete, h, ih]

theorem rget_rset_self (k : String) (v : SessionRec) (r : Registry) :
    rget k (rset k v r) = some v := by
  simp [rget, rset]

theorem rget_rset_ne (k j : String) (v : SessionRec) (r : Registry) (h : k ≠ j) :
    rget k (rset j v r) = rget k r := by
  have hj : (j == k) = false := by
    simpa [beq_eq_false_iff_ne] using fun hx => h hx.symm
  simp [rget, rset, hj, rget_rdelete_ne k j r h]

/-! ## Helper lemmas about cleanup as a filter -/

theorem foldl_unlink_eq_filter (paths : List String) (s : FsState) :
    paths.foldl (fun acc p => unlinkFs p acc) s
      = s.filter (fun q => !(paths.contains q)) := by
  induction paths generalizing s with
  | nil => simp
  | cons p ps ih =>
    simp only [List.foldl_cons]
    rw [ih]
    unfold unlinkFs
    rw [List.filter_filter]
    congr 1
    funext q
    rw [List.contains_cons, Bool.not_or, Bool.and_comm]

/-- The combined keep-predicate that one `cleanupTempFiles` call with a
non-empty path list applies to the filesystem. -/
def cleanupKeep (paths : List String) (dir : Option String) (q : String) : Bool :=
  (match dir with
   | some d => !(q == d) && !(strStartsWith q (d ++ "/"))
   | none => true) && !(paths.contains q)

theorem cleanupTempFiles_eq_filter (paths : List String) (dir : Option String)
    (s : FsState) (h : paths ≠ []) :
    cleanupTempFiles paths dir s = s.filter (cleanupKeep paths dir) := by
  have hlen : ¬(paths.length = 0) := by simpa [List.length_eq_zero] using h
  unfold cleanupTempFiles
  rw [if_neg hlen, foldl_unlink_eq_filter]
  cases dir with
  | none =>
    show s.filter (fun q => !(paths.contains q)) = s.filter (cleanupKeep paths none)
    have hk : cleanupKeep paths none = fun q => !(paths.contains q) := by
      funext q
      show (true && !(paths.contains q)) = !(paths.contains q)
      rw [Bool.true_and]
    rw [hk]
  | some d =>
    show rmRecursiveFs d (s.filter (fun q => !(paths.contains q)))
        = s.filter (cleanupKeep paths (some d))
    unfold rmRecursiveFs
    rw [List.filter_filter]
    rfl

theorem cleanupTempFiles_idem (paths : List String) (dir : Option String)
    (s : FsState) :
    cleanupTempFiles paths dir (cleanupTempFiles paths dir s)
      = cleanupTempFiles paths dir s := by
  by_cases h : paths = []
  · subst h
    simp [cleanupTempFiles]
  · rw [cleanupTempFiles_eq_filter paths dir s h,
        cleanupTempFiles_eq_filter paths dir _ h,
        List.filter_filter]
    congr 1
    funext q
    exact Bool.and_self _

/-! ## Helper lemmas about session-created event counting -/

/-- Discriminator for session-created events. -/
def isCreatedEvent : Event → Bool
  | Event.sessionCreated _ => true
  | _ => false

/-- Number of session-created events in an event list. -/
def countCreated (es : List Event) : Nat :=
  es.countP isCreatedEvent

theorem countCreated_append (a b : List Event) :
    countCreated (a ++ b) = countCreated a + countCreated b :=
  List.countP_append _ _ _

/-- One line-handler step keeps the session-created count equal to the
session-created flag. -/
theorem stepLine_countCreated (sessionId : Option String) (psid : String)
    (st : LineState) (l : OutLine)
    (h : countCreated st.events = cond st.createdSent 1 0) :
    countCreated (stepLine sessionId psid st l).events
      = cond (stepLine sessionId psid st l).createdSent 1 0 := by
  cases l with
  | blank => exact h
  | text s =>
    show countCreated (st.events ++ [Event.claudeResponse (MsgData.text s)])
        = cond st.createdSent 1 0
    rw [countCreated_append, h]
    rfl
  | json m =>
    simp only [stepLine]
    by_cases h1 : (optTruthy m.session_id && !(optTruthy st.captured)) = true
    · rw [if_pos h1]
      by_cases h2 : (!(optTruthy sessionId) && !st.createdSent) = true
      · rw [if_pos h2]
        have hcs : st.createdSent = false := by
          have h3 := (Bool.and_eq_true _ _).mp h2
          simpa using h3.2
        show countCreated (st.events ++ [Event.sessionCreated (optGet m.session_id),
            Event.claudeResponse (MsgData.parsed m)]) = cond true 1 0
        rw [countCreated_append, h, hcs]
        rfl
      · rw [if_neg h2]
        show countCreated (st.events ++ [Event.claudeResponse (MsgData.parsed m)])
            = cond st.createdSent 1 0
        rw [countCreated_append, h]
        rfl
    · rw [if_neg h1]
      show countCreated (st.events ++ [Event.claudeResponse (MsgData.parsed m)])
          = cond st.createdSent 1 0
      rw [countCreated_append, h]
      rfl

/-- Fold version of `stepLine_countCreated`. -/
theorem foldl_stepLine_countCreated (sessionId : Option String) (psid : String)
    (ls : List OutLine) (st : LineState)
    (h : countCreated st.events = cond st.createdSent 1 0) :
    countCreated (ls.foldl (stepLine sessionId psid) st).events
      = cond (ls.foldl (stepLine sessionId psid) st).createdSent 1 0 := by
  induction ls generalizing st with
  | nil => exact h
  | cons l ls ih =>
    simp only [List.foldl_cons]
    exact ih _ (stepLine_countCreated sessionId psid st l h)

/-- With a truthy caller-supplied session id the emission guard of line
201 is always false: one step never emits a session-created event and
never flips the flag. -/
theorem stepLine_truthy_sessionId (sessionId : Option String) (psid : String)
    (st : LineState) (l : OutLine) (hs : optTruthy sessionId = true) :
    (stepLine sessionId psid st l).createdSent = st.createdSent ∧
    countCreated (stepLine sessionId psid st l).events = countCreated st.events := by
  cases l with
  | blank => exact ⟨rfl, rfl⟩
  | text s =>
    refine ⟨rfl, ?_⟩
    show countCreated (st.events ++ [Event.claudeResponse (MsgData.text s)])
        = countCreated st.events
    rw [countCreated_append]
    rfl
  | json m =>
    simp only [stepLine]
    have h2 : ¬((!(optTruthy sessionId) && !st.createdSent) = true) := by
      simp [hs]
    by_cases h1 : (optTruthy m.session_id && !(optTruthy st.captured)) = true
    · rw [if_pos h1, if_neg h2]
      refine ⟨rfl, ?_⟩
      show countCreated (st.events ++ [Event.claudeResponse (MsgData.parsed m)])
          = countCreated st.events
      rw [countCreated_append]
      rfl
    · rw [if_neg h1]
      refine ⟨rfl, ?_⟩
      show countCreated (st.events ++ [Event.claudeResponse (MsgData.parsed m)])
          = countCreated st.events
      rw [countCreated_append]
      rfl

/-- Fold version of `stepLine_truthy_sessionId`. -/
theorem foldl_stepLine_truthy_sessionId (sessionId : Option String) (psid : String)
    (ls : List OutLine) (st : LineState) (hs : optTruthy sessionId = true) :
    (ls.foldl (stepLine sessionId psid) st).createdSent = st.createdSent ∧
    countCreated (ls.foldl (stepLine sessionId psid) st).events
      = countCreated st.events := by
  induction ls generalizing st with
  | nil => exact ⟨rfl, rfl⟩
  | cons l ls ih =>
    simp only [List.foldl_cons]
    obtain ⟨ha, hb⟩ := stepLine_truthy_sessionId sessionId psid st l hs
    obtain ⟨hc, hd⟩ := ih (stepLine sessionId psid st l)
    exact ⟨hc.trans ha, hd.trans hb⟩

/-- With a truthy captured id the capture branch of line 185 is
disabled: one step changes nothing but appending passthrough events. -/
theorem stepLine_truthy_captured (sessionId : Option String) (psid : String)
    (st : LineState) (l : OutLine) (hc : optTruthy st.captured = true) :
    (stepLine sessionId psid st l).captured = st.captured ∧
    (stepLine sessionId psid st l).createdSent = st.createdSent ∧
    (stepLine sessionId psid st l).registry = st.registry ∧
    (stepLine sessionId psid st l).setSessionIdCalls = st.setSessionIdCalls ∧
    countCreated (stepLine sessionId psid st l).events = countCreated st.events := by
  cases l with
  | blank => exact ⟨rfl, rfl, rfl, rfl, rfl⟩
  | text s =>
    refine ⟨rfl, rfl, rfl, rfl, ?_⟩
    show countCreated (st.events ++ [Event.claudeResponse (MsgData.text s)])
        = countCreated st.events
    rw [countCreated_append]
    rfl
  | json m =>
    simp only [stepLine]
    have h1 : ¬((optTruthy m.session_id && !(optTruthy st.captured)) = true) := by
      simp [hc]
    rw [if_neg h1]
    refine ⟨rfl, rfl, rfl, rfl, ?_⟩
    show countCreated (st.events ++ [Event.claudeResponse (MsgData.parsed m)])
        = countCreated st.events
    rw [countCreated_append]
    rfl

/-- Fold version of `stepLine_truthy_captured`. -/
theorem foldl_stepLine_truthy_captured (sessionId : Option String) (psid : String)
    (ls : List OutLine) (st : LineState) (hc : optTruthy st.captured = true) :
    (ls.foldl (stepLine sessionId psid) st).captured = st.captured ∧
    (ls.foldl (stepLine sessionId psid) st).createdSent = st.createdSent ∧
    (ls.foldl (stepLine sessionId psid) st).registry = st.registry ∧
    (ls.foldl (stepLine sessionId psid) st).setSessionIdCalls = st.setSessionIdCalls ∧
    countCreated (ls.foldl (stepLine sessionId psid) st).events
      = countCreated st.events := by
  induction ls generalizing st with
  | nil => exact ⟨rfl, rfl, rfl, rfl, rfl⟩
  | cons l ls ih =>
    simp only [List.foldl_cons]
    obtain ⟨h1, h2, h3, h4, h5⟩ := stepLine_truthy_captured sessionId psid st l hc
    have hc2 : optTruthy (stepLine sessionId psid st l).captured = true := by
      rw [h1]; exact hc
    obtain ⟨g1, g2, g3, g4, g5⟩ := ih (stepLine sessionId psid st l) hc2
    exact ⟨g1.trans h1, g2.trans h2, g3.trans h3, g4.trans h4, g5.trans h5⟩

/-- Termination handling emits exactly one final event, never a
session-created one. -/
theorem finishRun_countCreated (command : String) (sessionId : Option String)
    (psid : String) (tip : List String) (td : Option String) (serr : String)
    (ev : ExitEvent) (st : LineState) :
    countCreated (finishRun command sessionId psid tip td serr ev st).events
      = countCreated st.events := by
  cases ev with
  | closed code =>
    by_cases h : code = 0
    · simp only [finishRun]
      rw [if_pos h]
      show countCreated (st.events ++
          [Event.claudeComplete st.captured 0 (!(optTruthy sessionId) && strTruthy command)])
          = countCreated st.events
      rw [countCreated_append]
      rfl
    · simp only [finishRun]
      rw [if_neg h]
      show countCreated (st.events ++
          [Event.claudeError ("Claude exited with code " ++ toString code ++ ": " ++ serr)])
          = countCreated st.events
      rw [countCreated_append]
      rfl
  | failed msg =>
    show countCreated (st.events ++ [Event.claudeError msg]) = countCreated st.events
    rw [countCreated_append]
    rfl

/-- Termination handling never calls `ws.setSessionId`. -/
theorem finishRun_setCalls (command : String) (sessionId : Option String)
    (psid : String) (tip : List String) (td : Option String) (serr : String)
    (ev : ExitEvent) (st : LineState) :
    (finishRun command sessionId psid tip td serr ev st).setSessionIdCalls
      = st.setSessionIdCalls := by
  cases ev with
  | closed code =>
    by_cases h : code = 0
    · simp only [finishRun]
      rw [if_pos h]
    · simp only [finishRun]
      rw [if_neg h]
  | failed msg => rfl

/-- With a truthy captured id, every termination path leaves the
registry equal to one deletion of the captured id (the second deletion
of the catch path is a no-op). -/
theorem finishRun_registry_truthy (command : String) (sessionId : Option String)
    (psid : String) (tip : List String) (td : Option String) (serr : String)
    (ev : ExitEvent) (st : LineState) (hc : optTruthy st.captured = true) :
    (finishRun command sessionId psid tip td serr ev st).registry
      = rdelete (optGet st.captured) st.registry := by
  cases ev with
  | closed code =>
    by_cases h : code = 0
    · simp only [finishRun]
      rw [if_pos h]
      show (if optTruthy st.captured then rdelete (optGet st.captured) st.registry
            else rdelete psid st.registry) = rdelete (optGet st.captured) st.registry
      rw [if_pos hc]
    · simp only [finishRun]
      rw [if_neg h]
      show (if optTruthy st.captured then
              rdelete (optGet st.captured)
                (if optTruthy st.captured then rdelete (optGet st.captured) st.registry
                 else rdelete psid st.registry)
            else
              (if optTruthy st.captured then rdelete (optGet st.captured) st.registry
               else rdelete psid st.registry))
          = rdelete (optGet st.captured) st.registry
      rw [if_pos hc, if_pos hc, rdelete_idem]
  | failed msg =>
    show (if optTruthy st.captured then
            rdelete (optGet st.captured)
              (if optTruthy st.captured then rdelete (optGet st.captured) st.registry
               else rdelete psid st.registry)
          else
            (if optTruthy st.captured then rdelete (optGet st.captured) st.registry
             else rdelete psid st.registry))
        = rdelete (optGet st.captured) st.registry
    rw [if_pos hc, if_pos hc, rdelete_idem]

/-- The completion event of a zero exit. -/
theorem finishRun_closed_zero_events (command : String) (sessionId : Option String)
    (psid : String) (tip : List String) (td : Option String) (serr : String)
    (st : LineState) :
    (finishRun command sessionId psid tip td serr (ExitEvent.closed 0) st).events
      = st.events ++
        [Event.claudeComplete st.captured 0 (!(optTruthy sessionId) && strTruthy command)] := by
  simp only [finishRun]
  rw [if_pos trivial]

theorem cond_one_zero_le_one (b : Bool) : (cond b 1 0 : Nat) ≤ 1 := by
  cases b <;> decide

/-- A line fold started with an unsent flag and an empty event list
emits at most one session-created event. -/
theorem foldl_stepLine_count_le_one (sessionId : Option String) (psid : String)
    (ls : List OutLine) (st : LineState)
    (h1 : st.createdSent = false) (h2 : st.events = []) :
    countCreated ((ls.foldl (stepLine sessionId psid) st)).events ≤ 1 := by
  have h : countCreated st.events = cond st.createdSent 1 0 := by
    rw [h1, h2]
    rfl
  rw [foldl_stepLine_countCreated _ _ _ _ h]
  exact cond_one_zero_le_one _

/-! ## Claim theorems -/

/-- C7: with no caller-supplied session id and the non-empty prompt hi,
the output lines (session_id abc, type system) then (type result,
total_cost_usd 0.02) followed by exit code 0 produce exactly, in order:
session-created abc, passthrough of the system line, passthrough of the
result line, and completion with session id abc, exit code 0 and
isNewSession true. -/
theorem queryClaudeSDK_example_trace :
    (queryClaudeSDK "hi" {} "/proj" 1 ⟨true, fun _ => true⟩ []
      ⟨[OutLine.json { session_id := some "abc", type := some "system" },
        OutLine.json { type := some "result", total_cost_usd := some ⟨2, 2⟩ }],
        "", ExitEvent.closed 0⟩).events =
    [Event.sessionCreated "abc",
     Event.claudeResponse (MsgData.parsed { session_id := some "abc", type := some "system" }),
     Event.claudeResponse (MsgData.parsed { type := some "result", total_cost_usd := some ⟨2, 2⟩ }),
     Event.claudeComplete (some "abc") 0 true] := by
  decide

/-- Every termination path records exactly one cleanup call with the
staged paths and directory. -/
theorem finishRun_cleanupCalls (command : String) (sessionId : Option String)
    (psid : String) (tip : List String) (td : Option String) (serr : String)
    (ev : ExitEvent) (st : LineState) :
    (finishRun command sessionId psid tip td serr ev st).cleanupCalls = [(tip, td)] := by
  cases ev with
  | closed code =>
    by_cases h : code = 0
    · simp only [finishRun]
      rw [if_pos h]
    · simp only [finishRun]
      rw [if_neg h]
  | failed msg => rfl

/-- On both catch paths (process error, and close with a non-zero code)
the key the session is registered under at that moment - the captured
id when truthy, else the provisional id - is unbound in the resulting
registry. -/
theorem finishRun_catch_registry (command : String) (sessionId : Option String)
    (psid : String) (tip : List String) (td : Option String) (serr : String)
    (ev : ExitEvent) (st : LineState)
    (hex : (∃ msg, ev = ExitEvent.failed msg) ∨
      (∃ code, code ≠ 0 ∧ ev = ExitEvent.closed code)) :
    rget (if optTruthy st.captured then optGet st.captured else psid)
      (finishRun command sessionId psid tip td serr ev st).registry = none := by
  have hkey : ∀ r2 : Registry,
      rget (if optTruthy st.captured then optGet st.captured else psid)
        (if optTruthy st.captured then
          rdelete (optGet st.captured)
            (if optTruthy st.captured then rdelete (optGet st.captured) r2
             else rdelete psid r2)
        else
          (if optTruthy st.captured then rdelete (optGet st.captured) r2
           else rdelete psid r2)) = none := by
    intro r2
    by_cases hc : optTruthy st.captured = true
    · rw [if_pos hc, if_pos hc, if_pos hc]
      exact rget_rdelete_self _ _
    · rw [if_neg hc, if_neg hc, if_neg hc]
      exact rget_rdelete_self _ _
  rcases hex with ⟨msg, rfl⟩ | ⟨code, hcode, rfl⟩
  · exact hkey st.registry
  · simp only [finishRun]
    rw [if_neg hcode]
    exact hkey st.registry

/-- C1: on every catch path (a process spawn/runtime error, or a close
with a non-zero exit code rejected to the catch), the registry key the
session is held under - the real id when one was captured, else the
provisional id - is unbound in the final registry (the close event
still fires after a spawn error, running the close handler deletion of
lines 248-252, and the catch re-deletes a truthy captured id); exactly
one cleanup call runs with the staged paths and directory, the last
event handed to the sink is the error event with the failure message,
and the same message is rethrown to the caller. -/
theorem queryClaudeSDK_catch_removes_entry (command : String) (options : CliOptions)
    (processCwd : String) (now : Nat) (fs : FsOracle) (r0 : Registry) (run : ProcRun)
    (msg : String)
    (hex : run.exitEvent = ExitEvent.failed msg ∨
      (∃ code, code ≠ 0 ∧ run.exitEvent = ExitEvent.closed code ∧
        msg = "Claude exited with code " ++ toString code ++ ": " ++ run.stderrText)) :
    (queryClaudeSDK command options processCwd now fs r0 run).thrown = some msg ∧
    (queryClaudeSDK command options processCwd now fs r0 run).events.getLast?
      = some (Event.claudeError msg) ∧
    (queryClaudeSDK command options processCwd now fs r0 run).cleanupCalls
      = [((handleImages command options.images options.cwd processCwd now fs).tempImagePaths,
          (handleImages command options.images options.cwd processCwd now fs).tempDir)] ∧
    rget
      (if optTruthy (run.outLines.foldl
            (stepLine options.sessionId (processIdOf options.sessionId now))
            { captured := options.sessionId, createdSent := false,
              registry := rset (processIdOf options.sessionId now)
                { status := SessionStatus.active,
                  tempImagePaths :=
                    (handleImages command options.images options.cwd processCwd now fs).tempImagePaths,
                  tempDir :=
                    (handleImages command options.images options.cwd processCwd now fs).tempDir,
                  procKilled := false } r0,
              events := [], setSessionIdCalls := [] }).captured
       then optGet (run.outLines.foldl
            (stepLine options.sessionId (processIdOf options.sessionId now))
            { captured := options.sessionId, createdSent := false,
              registry := rset (processIdOf options.sessionId now)
                { status := SessionStatus.active,
                  tempImagePaths :=
                    (handleImages command options.images options.cwd processCwd now fs).tempImagePaths,
                  tempDir :=
                    (handleImages command options.images options.cwd processCwd now fs).tempDir,
                  procKilled := false } r0,
              events := [], setSessionIdCalls := [] }).captured
       else processIdOf options.sessionId now)
      (queryClaudeSDK command options processCwd now fs r0 run).registry = none := by
  have hex2 : (∃ m, run.exitEvent = ExitEvent.failed m) ∨
      (∃ code, code ≠ 0 ∧ run.exitEvent = ExitEvent.closed code) := by
    rcases hex with h | ⟨code, hcode, h, _⟩
    · exact Or.inl ⟨msg, h⟩
    · exact Or.inr ⟨code, hcode, h⟩
  refine ⟨?_, ?_, ?_, ?_⟩
  · rcases hex with h | ⟨code, hcode, h, hmsg⟩
    · simp only [queryClaudeSDK]
      rw [h]
      rfl
    · simp only [queryClaudeSDK]
      rw [h]
      simp only [finishRun]
      rw [if_neg hcode, hmsg]
  · rcases hex with h | ⟨code, hcode, h, hmsg⟩
    · simp only [queryClaudeSDK]
      rw [h]
      exact List.getLast?_concat _
    · simp only [queryClaudeSDK]
      rw [h]
      simp only [finishRun]
      rw [if_neg hcode, hmsg]
      exact List.getLast?_concat _
  · simp only [queryClaudeSDK]
    rw [finishRun_cleanupCalls]
  · simp only [queryClaudeSDK]
    refine finishRun_catch_registry _ _ _ _ _ _ _ _ ?_
    rcases hex2 with h | h
    · exact Or.inl h
    · exact Or.inr h

/-- C1 witness: a spawn error with no caller-supplied id and no output
lines; the provisional key pending_5 is unbound afterwards, cleanup was
called, the error event was last, and the error was rethrown. -/
theorem queryClaudeSDK_catch_removes_entry_witness :
    rget "pending_5" (queryClaudeSDK "hi" {} "/proj" 5 ⟨true, fun _ => true⟩ []
        ⟨[], "", ExitEvent.failed "spawn claude ENOENT"⟩).registry = none ∧
    (queryClaudeSDK "hi" {} "/proj" 5 ⟨true, fun _ => true⟩ []
        ⟨[], "", ExitEvent.failed "spawn claude ENOENT"⟩).thrown
      = some "spawn claude ENOENT" ∧
    (queryClaudeSDK "hi" {} "/proj" 5 ⟨true, fun _ => true⟩ []
        ⟨[], "", ExitEvent.failed "spawn claude ENOENT"⟩).events.getLast?
      = some (Event.claudeError "spawn claude ENOENT") ∧
    (queryClaudeSDK "hi" {} "/proj" 5 ⟨true, fun _ => true⟩ []
        ⟨[], "", ExitEvent.failed "spawn claude ENOENT"⟩).cleanupCalls = [([], none)] :=
  ⟨(queryClaudeSDK_catch_removes_entry "hi" {} "/proj" 5 ⟨true, fun _ => true⟩ []
      ⟨[], "", ExitEvent.failed "spawn claude ENOENT"⟩ "spawn claude ENOENT"
      (Or.inl rfl)).2.2.2,
   (queryClaudeSDK_catch_removes_entry "hi" {} "/proj" 5 ⟨true, fun _ => true⟩ []
      ⟨[], "", ExitEvent.failed "spawn claude ENOENT"⟩ "spawn claude ENOENT"
      (Or.inl rfl)).1,
   (queryClaudeSDK_catch_removes_entry "hi" {} "/proj" 5 ⟨true, fun _ => true⟩ []
      ⟨[], "", ExitEvent.failed "spawn claude ENOENT"⟩ "spawn claude ENOENT"
      (Or.inl rfl)).2.1,
   (queryClaudeSDK_catch_removes_entry "hi" {} "/proj" 5 ⟨true, fun _ => true⟩ []
      ⟨[], "", ExitEvent.failed "spawn claude ENOENT"⟩ "spawn claude ENOENT"
      (Or.inl rfl)).2.2.1⟩

/-- C8: the argument vector always begins with the non-interactive
streamed structured-output flags, always ends with the untransformed
prompt, and contains the resume, allowed-tools, disallowed-tools and
model groups exactly under their respective conditions, in this
order. -/
theorem buildCliArgs_shape (command : String) (options : CliOptions) :
    (buildCliArgs command options).take 3
      = ["--print", "--output-format", "stream-json"] ∧
    (buildCliArgs command options).getLast? = some command ∧
    buildCliArgs command options =
      ["--print", "--output-format", "stream-json"]
      ++ (if optTruthy options.sessionId then ["--resume", optGet options.sessionId] else [])
      ++ (if (allowedToolsOf options).length > 0 then
            ["--allowedTools", String.intercalate "," (allowedToolsOf options)] else [])
      ++ (if (disallowedToolsOf options).length > 0 then
            ["--disallowedTools", String.intercalate "," (disallowedToolsOf options)] else [])
      ++ (if optTruthy options.model then ["--model", optGet options.model] else [])
      ++ [command] := by
  unfold buildCliArgs
  by_cases h1 : optTruthy options.sessionId = true <;>
  by_cases h2 : (allowedToolsOf options).length > 0 <;>
  by_cases h3 : (disallowedToolsOf options).length > 0 <;>
  by_cases h4 : optTruthy options.model = true <;>
    simp [h1, h2, h3, h4]

/-- C6: over any whole request, a session-created event is emitted at
most once, and never when the caller supplied a (truthy) session id in
the options, whatever the output lines are. -/
theorem queryClaudeSDK_sessionCreated_once (command : String) (options : CliOptions)
    (processCwd : String) (now : Nat) (fs : FsOracle) (r0 : Registry) (run : ProcRun) :
    countCreated (queryClaudeSDK command options processCwd now fs r0 run).events ≤ 1 ∧
    (optTruthy options.sessionId = true →
      countCreated (queryClaudeSDK command options processCwd now fs r0 run).events = 0) := by
  constructor
  · simp only [queryClaudeSDK]
    rw [finishRun_countCreated]
    exact foldl_stepLine_count_le_one _ _ _ _ rfl rfl
  · intro hs
    simp only [queryClaudeSDK]
    rw [finishRun_countCreated]
    exact (foldl_stepLine_truthy_sessionId _ _ _ _ hs).2

/-- C6 witness: a concrete run with a caller-supplied session id and a
line carrying a different session_id emits no session-created event. -/
theorem queryClaudeSDK_sessionCreated_once_witness :
    countCreated (queryClaudeSDK "hi" { sessionId := some "sess1" } "/proj" 1
      ⟨true, fun _ => true⟩ []
      ⟨[OutLine.json { session_id := some "abc", type := some "system" }],
        "", ExitEvent.closed 0⟩).events = 0 :=
  (queryClaudeSDK_sessionCreated_once "hi" { sessionId := some "sess1" } "/proj" 1
    ⟨true, fun _ => true⟩ []
    ⟨[OutLine.json { session_id := some "abc", type := some "system" }],
      "", ExitEvent.closed 0⟩).2 (by decide)

/-- Substring containment of whole strings via an explicit split. -/
def strContainsSub (s sub : String) : Prop :=
  ∃ a b : String, s = a ++ sub ++ b

/-- C4: whenever the process exits with a non-zero code, the caller
observes a rethrown failure whose message contains both the exit code
and the accumulated stderr text, and the last event handed to the sink
before that failure is the error event carrying the same message. -/
theorem queryClaudeSDK_nonzero_exit (command : String) (options : CliOptions)
    (processCwd : String) (now : Nat) (fs : FsOracle) (r0 : Registry)
    (outLines : List OutLine) (stderrText : String) (code : Nat) (h : code ≠ 0) :
    (queryClaudeSDK command options processCwd now fs r0
        ⟨outLines, stderrText, ExitEvent.closed code⟩).thrown
      = some ("Claude exited with code " ++ toString code ++ ": " ++ stderrText) ∧
    (queryClaudeSDK command options processCwd now fs r0
        ⟨outLines, stderrText, ExitEvent.closed code⟩).events.getLast?
      = some (Event.claudeError
          ("Claude exited with code " ++ toString code ++ ": " ++ stderrText)) ∧
    strContainsSub ("Claude exited with code " ++ toString code ++ ": " ++ stderrText)
      (toString code) ∧
    strContainsSub ("Claude exited with code " ++ toString code ++ ": " ++ stderrText)
      stderrText := by
  refine ⟨?_, ?_, ?_, ?_⟩
  · simp only [queryClaudeSDK, finishRun]
    rw [if_neg h]
  · simp only [queryClaudeSDK, finishRun]
    rw [if_neg h]
    exact List.getLast?_concat _
  · exact ⟨"Claude exited with code ", ": " ++ stderrText,
      String.append_assoc ("Claude exited with code " ++ toString code) ": " stderrText⟩
  · exact ⟨"Claude exited with code " ++ toString code ++ ": ", "",
      (String.append_empty _).symm⟩

/-- C4 witness: exit code 2 with stderr boom. -/
theorem queryClaudeSDK_nonzero_exit_witness :
    (queryClaudeSDK "hi" {} "/proj" 1 ⟨true, fun _ => true⟩ []
        ⟨[], "boom", ExitEvent.closed 2⟩).thrown
      = some ("Claude exited with code " ++ toString 2 ++ ": " ++ "boom") ∧
    (queryClaudeSDK "hi" {} "/proj" 1 ⟨true, fun _ => true⟩ []
        ⟨[], "boom", ExitEvent.closed 2⟩).events.getLast?
      = some (Event.claudeError
          ("Claude exited with code " ++ toString 2 ++ ": " ++ "boom")) ∧
    strContainsSub ("Claude exited with code " ++ toString 2 ++ ": " ++ "boom")
      (toString 2) ∧
    strContainsSub ("Claude exited with code " ++ toString 2 ++ ": " ++ "boom") "boom" :=
  queryClaudeSDK_nonzero_exit "hi" {} "/proj" 1 ⟨true, fun _ => true⟩ [] [] "boom" 2
    (by decide)

/-- C2 counterexample: two valid attachments with the write of the
second one failing. The catch returns the path already written (a
non-empty list) and the already-assigned temp directory (non-null),
refuting the claimed empty path list and absent directory; only the
prompt comes back unmodified. -/
theorem handleImages_error_counterexample :
    (handleImages "hi"
        [⟨"data:image/png;base64,QUJD"⟩, ⟨"data:image/jpeg;base64,QUJD"⟩]
        none "/proj" 7 ⟨true, fun i => i == 0⟩)
      = { modifiedCommand := "hi",
          tempImagePaths := ["/proj/.tmp/images/7/image_0.png"],
          tempDir := some "/proj/.tmp/images/7" } ∧
    (handleImages "hi"
        [⟨"data:image/png;base64,QUJD"⟩, ⟨"data:image/jpeg;base64,QUJD"⟩]
        none "/proj" 7 ⟨true, fun i => i == 0⟩).tempImagePaths ≠ [] ∧
    (handleImages "hi"
        [⟨"data:image/png;base64,QUJD"⟩, ⟨"data:image/jpeg;base64,QUJD"⟩]
        none "/proj" 7 ⟨true, fun i => i == 0⟩).tempDir ≠ none := by
  decide

/-- C2 amended: on an unexpected staging error the error does not
propagate and the original prompt comes back unmodified, but the
written-paths list holds exactly the paths written before the error
(possibly non-empty) and the temp-directory value is the
already-computed directory path (non-null whenever attachments were
present). -/
theorem handleImages_error_degrades (command : String) (images : List ImageAttachment)
    (cwd : Option String) (processCwd : String) (now : Nat) (fs : FsOracle)
    (hne : images ≠ [])
    (herr : fs.mkdirOk = false ∨
      (writeImagesLoop fs (tempDirPath cwd processCwd now) images.enum).2 = true) :
    (handleImages command images cwd processCwd now fs).modifiedCommand = command ∧
    (handleImages command images cwd processCwd now fs).tempDir
      = some (tempDirPath cwd processCwd now) ∧
    (handleImages command images cwd processCwd now fs).tempImagePaths
      = (if fs.mkdirOk then
          (writeImagesLoop fs (tempDirPath cwd processCwd now) images.enum).1
         else []) := by
  have hlen : ¬(images.length = 0) := by simpa [List.length_eq_zero] using hne
  rcases herr with hmk | hloop
  · simp [handleImages, hlen, hmk]
  · by_cases hmk : fs.mkdirOk = false
    · simp [handleImages, hlen, hmk]
    · have hmk2 : fs.mkdirOk = true := by
        revert hmk
        cases fs.mkdirOk <;> simp
      simp [handleImages, hlen, hmk2, hloop]

/-- C2 amended witness: one valid attachment with a failing mkdir. -/
theorem handleImages_error_degrades_witness :
    (handleImages "hi" [⟨"data:image/png;base64,QUJD"⟩] none "/proj" 7
        ⟨false, fun _ => true⟩).modifiedCommand = "hi" ∧
    (handleImages "hi" [⟨"data:image/png;base64,QUJD"⟩] none "/proj" 7
        ⟨false, fun _ => true⟩).tempDir = some (tempDirPath none "/proj" 7) ∧
    (handleImages "hi" [⟨"data:image/png;base64,QUJD"⟩] none "/proj" 7
        ⟨false, fun _ => true⟩).tempImagePaths
      = (if (FsOracle.mk false (fun _ => true)).mkdirOk then
          (writeImagesLoop ⟨false, fun _ => true⟩ (tempDirPath none "/proj" 7)
            [⟨"data:image/png;base64,QUJD"⟩].enum).1
         else []) :=
  handleImages_error_degrades "hi" [⟨"data:image/png;base64,QUJD"⟩] none "/proj" 7
    ⟨false, fun _ => true⟩ (by decide) (Or.inl rfl)

/-- C3 counterexample: with an empty path list the early return of line
113 skips the directory removal, so a present directory survives the
call, refuting removal of the directory whenever one is present. -/
theorem cleanupTempFiles_empty_paths_keeps_dir :
    cleanupTempFiles [] (some "/proj/.tmp/images/7")
        ["/proj/.tmp/images/7", "/proj/.tmp/images/7/image_0.png"]
      = ["/proj/.tmp/images/7", "/proj/.tmp/images/7/image_0.png"] ∧
    "/proj/.tmp/images/7" ∈ cleanupTempFiles [] (some "/proj/.tmp/images/7")
        ["/proj/.tmp/images/7", "/proj/.tmp/images/7/image_0.png"] := by
  decide

/-- C3 amended: with an empty (or absent) path list the call is a
complete no-op, directory included; with a non-empty path list every
listed path is deleted and a present directory is removed recursively;
and the operation is idempotent (a second identical call changes
nothing and no call ever raises, failures being swallowed). -/
theorem cleanupTempFiles_contract (paths : List String) (dir : Option String)
    (s : FsState) :
    (paths = [] → cleanupTempFiles paths dir s = s) ∧
    (paths ≠ [] → ∀ p ∈ paths, p ∉ cleanupTempFiles paths dir s) ∧
    (paths ≠ [] → ∀ d, dir = some d → d ∉ cleanupTempFiles paths dir s) ∧
    cleanupTempFiles paths dir (cleanupTempFiles paths dir s)
      = cleanupTempFiles paths dir s := by
  refine ⟨?_, ?_, ?_, cleanupTempFiles_idem paths dir s⟩
  · intro h
    subst h
    rfl
  · intro h p hp hmem
    rw [cleanupTempFiles_eq_filter paths dir s h] at hmem
    have hkeep := (List.mem_filter.mp hmem).2
    unfold cleanupKeep at hkeep
    simp at hkeep
    exact hkeep.2 hp
  · intro h d hd hmem
    subst hd
    rw [cleanupTempFiles_eq_filter paths (some d) s h] at hmem
    have hkeep := (List.mem_filter.mp hmem).2
    unfold cleanupKeep at hkeep
    simp at hkeep

/-- C3 amended witness: concrete non-empty and empty calls. -/
theorem cleanupTempFiles_contract_witness :
    cleanupTempFiles ["/t/a"] (some "/t")
        (cleanupTempFiles ["/t/a"] (some "/t") ["/t", "/t/a", "/x"])
      = cleanupTempFiles ["/t/a"] (some "/t") ["/t", "/t/a", "/x"] ∧
    ("/t/a" ∉ cleanupTempFiles ["/t/a"] (some "/t") ["/t", "/t/a", "/x"]) ∧
    ("/t" ∉ cleanupTempFiles ["/t/a"] (some "/t") ["/t", "/t/a", "/x"]) ∧
    cleanupTempFiles [] (some "/t") ["/t"] = ["/t"] :=
  ⟨(cleanupTempFiles_contract ["/t/a"] (some "/t") ["/t", "/t/a", "/x"]).2.2.2,
   (cleanupTempFiles_contract ["/t/a"] (some "/t") ["/t", "/t/a", "/x"]).2.1
     (by decide) "/t/a" (by decide),
   (cleanupTempFiles_contract ["/t/a"] (some "/t") ["/t", "/t/a", "/x"]).2.2.1
     (by decide) "/t" rfl,
   (cleanupTempFiles_contract [] (some "/t") ["/t"]).1 rfl⟩

/-- C5: when a session record is registered exactly under its
provisional id, rekeying to a distinct real id leaves the record
reachable exactly under the real id; the provisional key is unbound in
the result, and it is already unbound in the intermediate state between
the delete and the set of lines 191-192, so at no point are both keys
bound. -/
theorem rekeySession_unique (prov realId : String) (sess : SessionRec) (r : Registry)
    (hne : prov ≠ realId)
    (honly : ∀ k, rget k r = some sess ↔ k = prov) :
    (∀ k, rget k (rekeySession prov realId r) = some sess ↔ k = realId) ∧
    rget prov (rekeySession prov realId r) = none ∧
    rget prov (rdelete prov r) = none := by
  have hprov : rget prov r = some sess := (honly prov).mpr rfl
  have hre : rekeySession prov realId r = rset realId sess (rdelete prov r) := by
    unfold rekeySession
    rw [hprov]
  refine ⟨?_, ?_, rget_rdelete_self prov r⟩
  · intro k
    rw [hre]
    by_cases hk : k = realId
    · subst hk
      rw [rget_rset_self]
      simp
    · rw [rget_rset_ne k realId sess _ hk]
      constructor
      · intro hmem
        exfalso
        by_cases hkp : k = prov
        · subst hkp
          rw [rget_rdelete_self] at hmem
          exact Option.noConfusion hmem
        · rw [rget_rdelete_ne k prov r hkp] at hmem
          exact hkp ((honly k).mp hmem)
      · intro hk2
        exact absurd hk2 hk
  · rw [hre, rget_rset_ne prov realId sess _ hne, rget_rdelete_self]

/-- C5 witness: a singleton registry rekeyed from pending_1 to abc. -/
theorem rekeySession_unique_witness :
    (∀ k, rget k (rekeySession "pending_1" "abc"
        [("pending_1", ⟨SessionStatus.active, [], none, false⟩)])
      = some ⟨SessionStatus.active, [], none, false⟩ ↔ k = "abc") ∧
    rget "pending_1" (rekeySession "pending_1" "abc"
        [("pending_1", ⟨SessionStatus.active, [], none, false⟩)]) = none ∧
    rget "pending_1" (rdelete "pending_1"
        [("pending_1", (⟨SessionStatus.active, [], none, false⟩ : SessionRec))]) = none :=
  rekeySession_unique "pending_1" "abc" ⟨SessionStatus.active, [], none, false⟩
    [("pending_1", ⟨SessionStatus.active, [], none, false⟩)]
    (by decide)
    (by
      intro k
      by_cases hk : k = "pending_1"
      · subst hk
        exact ⟨fun _ => rfl, fun _ => by decide⟩
      · have hbk : (("pending_1" : String) == k) = false := by
          rw [beq_eq_false_iff_ne]
          exact fun hx => hk hx.symm
        constructor
        · intro h
          exfalso
          simp [rget, hbk] at h
        · intro h2
          exact absurd h2 hk)

/-- C9: aborting an unknown session id returns false and changes
nothing; aborting a registered session returns true, removes the entry,
marks the record aborted, applies cleanup once — and when the natural
exit path and the abort path race on the same session, a second
registry deletion and a second cleanup are no-ops, and an abort that
runs after the entry is already gone reports false. -/
theorem abortClaudeSDKSession_contract (sessionId : String) (r : Registry)
    (s : FsState) :
    (rget sessionId r = none →
      abortClaudeSDKSession sessionId r s
        = { found := false, registry := r, fsState := s,
            sigtermSent := false, finalSession := none }) ∧
    (∀ sess, rget sessionId r = some sess →
      (abortClaudeSDKSession sessionId r s).found = true ∧
      (abortClaudeSDKSession sessionId r s).registry = rdelete sessionId r ∧
      rget sessionId (abortClaudeSDKSession sessionId r s).registry = none ∧
      (abortClaudeSDKSession sessionId r s).finalSession
        = some { sess with status := SessionStatus.aborted } ∧
      (abortClaudeSDKSession sessionId r s).fsState
        = cleanupTempFiles sess.tempImagePaths sess.tempDir s ∧
      rdelete sessionId (abortClaudeSDKSession sessionId r s).registry
        = (abortClaudeSDKSession sessionId r s).registry ∧
      cleanupTempFiles sess.tempImagePaths sess.tempDir
          (abortClaudeSDKSession sessionId r s).fsState
        = (abortClaudeSDKSession sessionId r s).fsState ∧
      (abortClaudeSDKSession sessionId (rdelete sessionId r)
          (cleanupTempFiles sess.tempImagePaths sess.tempDir s)).found = false) := by
  constructor
  · intro h
    unfold abortClaudeSDKSession
    rw [h]
  · intro sess h
    have habort : abortClaudeSDKSession sessionId r s
        = { found := true, registry := rdelete sessionId r,
            fsState := cleanupTempFiles sess.tempImagePaths sess.tempDir s,
            sigtermSent := !sess.procKilled,
            finalSession := some { sess with status := SessionStatus.aborted } } := by
      unfold abortClaudeSDKSession
      rw [h]
    rw [habort]
    refine ⟨rfl, rfl, rget_rdelete_self _ _, rfl, rfl, rdelete_idem _ _,
      cleanupTempFiles_idem _ _ _, ?_⟩
    unfold abortClaudeSDKSession
    rw [rget_rdelete_self]

/-- C9 witness: an empty registry and a singleton registry. -/
theorem abortClaudeSDKSession_contract_witness :
    (abortClaudeSDKSession "a" [] []
      = { found := false, registry := [], fsState := [],
          sigtermSent := false, finalSession := none }) ∧
    (abortClaudeSDKSession "a"
        [("a", ⟨SessionStatus.active, ["/t/f"], some "/t", false⟩)]
        ["/t", "/t/f"]).found = true :=
  ⟨(abortClaudeSDKSession_contract "a" [] []).1 rfl,
   ((abortClaudeSDKSession_contract "a"
        [("a", ⟨SessionStatus.active, ["/t/f"], some "/t", false⟩)]
        ["/t", "/t/f"]).2
      ⟨SessionStatus.active, ["/t/f"], some "/t", false⟩ (by decide)).1⟩

/-- C10: with a (truthy) caller-supplied session id the registration key
is the caller id itself, the line fold never touches the registry (the
capture branch is disabled because capturedSessionId starts truthy),
the sink setSessionId callback is never invoked, no session-created
event is emitted, the final registry is one deletion of the caller key
from the registered state whatever the termination, and on a zero exit
the completion event carries the caller-supplied id (with isNewSession
false). -/
theorem queryClaudeSDK_caller_session_id (command : String) (options : CliOptions)
    (processCwd : String) (now : Nat) (fs : FsOracle) (r0 : Registry) (run : ProcRun)
    (sid : String) (hsid : options.sessionId = some sid) (hne : sid ≠ "") :
    (queryClaudeSDK command options processCwd now fs r0 run).setSessionIdCalls = [] ∧
    countCreated (queryClaudeSDK command options processCwd now fs r0 run).events = 0 ∧
    processIdOf options.sessionId now = sid ∧
    (∀ st : LineState, optTruthy st.captured = true →
      (run.outLines.foldl (stepLine options.sessionId sid) st).registry = st.registry ∧
      (run.outLines.foldl (stepLine options.sessionId sid) st).captured = st.captured) ∧
    (queryClaudeSDK command options processCwd now fs r0 run).registry
      = rdelete sid (rset sid
          { status := SessionStatus.active,
            tempImagePaths :=
              (handleImages command options.images options.cwd processCwd now fs).tempImagePaths,
            tempDir :=
              (handleImages command options.images options.cwd processCwd now fs).tempDir,
            procKilled := false } r0) ∧
    (run.exitEvent = ExitEvent.closed 0 →
      (queryClaudeSDK command options processCwd now fs r0 run).events.getLast?
        = some (Event.claudeComplete (some sid) 0 false)) := by
  have htr : optTruthy options.sessionId = true := by
    simp [hsid, optTruthy, strTruthy, hne]
  have hpid : processIdOf options.sessionId now = sid := by
    unfold processIdOf
    rw [if_pos htr, hsid]
    rfl
  have g := foldl_stepLine_truthy_captured options.sessionId sid run.outLines
    { captured := options.sessionId, createdSent := false,
      registry := rset sid
        { status := SessionStatus.active,
          tempImagePaths :=
            (handleImages command options.images options.cwd processCwd now fs).tempImagePaths,
          tempDir :=
            (handleImages command options.images options.cwd processCwd now fs).tempDir,
          procKilled := false } r0,
      events := [], setSessionIdCalls := [] } htr
  have hcapeq : (run.outLines.foldl (stepLine options.sessionId sid)
      { captured := options.sessionId, createdSent := false,
        registry := rset sid
          { status := SessionStatus.active,
            tempImagePaths :=
              (handleImages command options.images options.cwd processCwd now fs).tempImagePaths,
            tempDir :=
              (handleImages command options.images options.cwd processCwd now fs).tempDir,
            procKilled := false } r0,
        events := [], setSessionIdCalls := [] }).captured = some sid := by
    rw [g.1]
    exact hsid
  have hfc : optTruthy ((run.outLines.foldl (stepLine options.sessionId sid)
      { captured := options.sessionId, createdSent := false,
        registry := rset sid
          { status := SessionStatus.active,
            tempImagePaths :=
              (handleImages command options.images options.cwd processCwd now fs).tempImagePaths,
            tempDir :=
              (handleImages command options.images options.cwd processCwd now fs).tempDir,
            procKilled := false } r0,
        events := [], setSessionIdCalls := [] }).captured) = true := by
    rw [hcapeq]
    simp [optTruthy, strTruthy, hne]
  refine ⟨?_, ?_, hpid, ?_, ?_, ?_⟩
  · simp only [queryClaudeSDK]
    rw [hpid, finishRun_setCalls]
    exact g.2.2.2.1
  · simp only [queryClaudeSDK]
    rw [hpid, finishRun_countCreated]
    exact g.2.2.2.2
  · intro st hc
    have h2 := foldl_stepLine_truthy_captured options.sessionId sid run.outLines st hc
    exact ⟨h2.2.2.1, h2.1⟩
  · simp only [queryClaudeSDK]
    rw [hpid, finishRun_registry_truthy _ _ _ _ _ _ _ _ hfc, hcapeq, g.2.2.1]
    rfl
  · intro hex
    simp only [queryClaudeSDK]
    rw [hpid, hex, finishRun_closed_zero_events, List.getLast?_concat, hcapeq, htr]
    rfl

/-- C10 witness: a caller-supplied id sess1 with an output line
reporting a different session_id abc; no setSessionId call is made. -/
theorem queryClaudeSDK_caller_session_id_witness :
    (queryClaudeSDK "hi" { sessionId := some "sess1" } "/proj" 1
        ⟨true, fun _ => true⟩ []
        ⟨[OutLine.json { session_id := some "abc", type := some "system" }],
          "", ExitEvent.closed 0⟩).setSessionIdCalls = [] :=
  (queryClaudeSDK_caller_session_id "hi" { sessionId := some "sess1" } "/proj" 1
      ⟨true, fun _ => true⟩ []
      ⟨[OutLine.json { session_id := some "abc", type := some "system" }],
        "", ExitEvent.closed 0⟩
      "sess1" rfl (by decide)).1
